import Mathlib

/-!
Shallow embedding of the AI-news-summarizer pipeline (`src/config.py`,
`src/main.py`).  External collaborators (the feed parser, the completion
service, the messaging sink, the clock) are modelled as inputs: each run is a
pure function of the data those collaborators returned.  Timestamps are UTC
instants measured in seconds, modelled as `Int`.
-/

namespace Spectrum

/-! ## config.py -/

/-- `config.MAX_ARTICLES`: maximum number of articles processed per run. -/
def MAX_ARTICLES : Nat := 5

/-- `config.HOURS_LOOKBACK`: hours to look back for articles. -/
def HOURS_LOOKBACK : Int := 48

/-! ## Data model

One feed entry flowing through the pipeline, mirroring the dict built in
`fetch_rss_feeds` and mutated by `filter_recent_articles` and `main`.

`published_parsed` mirrors the Python field of the same name:
* `none` — the key is absent / `None` (feedparser found no parseable date);
* `some s` — a `time.struct_time` is present; `s : Option Int` records the
  outcome of `datetime(*struct[:6])`: `some t` when the conversion yields the
  UTC instant `t`, `none` when it raises `ValueError`/`TypeError`.
  A `struct_time` object is always truthy in Python, so the truthiness test
  `if article["published_parsed"]:` corresponds to `isSome` of the outer
  option. -/
structure Article where
  feed_name : String
  title : String
  link : String
  published_parsed : Option (Option Int)
  published : String
  description : String
  published_datetime : Option Int := none
  summary : Option String := none
  error : Option String := none
  processed_at : Option Int := none
deriving Repr, DecidableEq

/-! ## Feed Ingestor (`fetch_rss_feeds`, main.py lines 36-79)

The feed-parsing collaborator (`feedparser.parse`) is an input: for each
configured `(name, url)` source the run is handed either the parsed feed or
the exception the fetch raised. -/

/-- One raw entry of a parsed feed, with every field optional, as returned by
the feed-parsing collaborator (`entry.get(...)` in the source). -/
structure Entry where
  title : Option String
  link : Option String
  published_parsed : Option (Option Int)
  published : Option String
  description : Option String
deriving Repr, DecidableEq

/-- What `feedparser.parse(url)` produced for one source: either the fetch
raised (`fetchError`), or a feed object carrying the `bozo` flag, the optional
`bozo_exception`, and the entry list. -/
inductive FeedResult where
  | fetchError (msg : String)
  | parsed (bozo : Bool) (bozo_exception : Option String) (entries : List Entry)
deriving Repr, DecidableEq

/-- The article dict built from one entry (main.py lines 61-68):
`entry.get("title", "No title")`, `entry.get("link", "")`, etc. -/
def articleOfEntry (feedName : String) (e : Entry) : Article :=
  { feed_name := feedName
    title := e.title.getD "No title"
    link := e.link.getD ""
    published_parsed := e.published_parsed
    published := e.published.getD ""
    description := e.description.getD "" }

/-- The records one source contributes (main.py lines 52-77): nothing when the
fetch raised or when `feed.bozo and feed.bozo_exception` holds; otherwise one
article per entry, kept only when `article["published_parsed"]` is truthy
(line 70). -/
def feedArticles (feedName : String) (r : FeedResult) : List Article :=
  match r with
  | .fetchError _ => []
  | .parsed bozo exc entries =>
    if bozo && exc.isSome then []
    else entries.filterMap fun e =>
      if (articleOfEntry feedName e).published_parsed.isSome
      then some (articleOfEntry feedName e) else none

/-- Number of skip diagnostics one source emits: 1 when the fetch raised
(line 76) or the feed was malformed (line 56), else 0. -/
def feedSkips (r : FeedResult) : Nat :=
  match r with
  | .fetchError _ => 1
  | .parsed bozo exc _ => if bozo && exc.isSome then 1 else 0

/-- `fetch_rss_feeds`: concatenation, in source order, of every feed's
contribution (`all_articles` accumulated across the loop). -/
def fetch_rss_feeds (feeds : List (String × FeedResult)) : List Article :=
  (feeds.map fun p => feedArticles p.1 p.2).flatten

/-- Total number of skip diagnostics across the run. -/
def totalSkips (feeds : List (String × FeedResult)) : Nat :=
  (feeds.map fun p => feedSkips p.2).sum

/-- A source the Ingestor skips entirely: malformed (`bozo` set together with
a `bozo_exception`) or the fetch raised. -/
def skippedSource : FeedResult → Bool
  | .fetchError _ => true
  | .parsed bozo exc _ => bozo && exc.isSome

/-! ## Recency Selector (`filter_recent_articles`, main.py lines 82-136)

`datetime.now(timezone.utc)` is sampled at the start of the run; the sample is
the parameter `now`.  `cutoff_time = now - HOURS_LOOKBACK hours` in seconds. -/

/-- Per-article body of the selection loop (lines 100-124): drop a falsy
`published_parsed`; convert the struct to a datetime, skipping the article if
the conversion raises; record `published_datetime`; keep the article iff
`pub_time >= cutoff_time`. -/
def selectRecent (cutoff : Int) (a : Article) : Option Article :=
  match a.published_parsed with
  | none => none
  | some none => none
  | some (some t) =>
    if cutoff ≤ t then some { a with published_datetime := some t } else none

/-- The sort key (line 127): `x["published_datetime"]`, which the loop has set
on every kept article (the `getD 0` default is never consulted there). -/
def sortKey (a : Article) : Int :=
  a.published_datetime.getD 0

/-- `filter_recent_articles`: early return on an empty pool; keep in-window
articles; `sort(key=..., reverse=True)` — a stable descending sort; truncate
to `MAX_ARTICLES`. -/
def filter_recent_articles (now : Int) (articles : List Article) : List Article :=
  if articles.isEmpty then []
  else
    let cutoff := now - HOURS_LOOKBACK * 3600
    let recent := articles.filterMap (selectRecent cutoff)
    (recent.mergeSort fun x y => sortKey y ≤ sortKey x).take MAX_ARTICLES

/-! ## Summarization request (`summarize_with_perplexity`, main.py 139-161) -/

/-- One chat message of a completion request: `(role, content)`. -/
structure ChatMessage where
  role : String
  content : String
deriving Repr, DecidableEq

/-- The JSON body POSTed to the completion service. -/
structure CompletionRequest where
  model : String
  messages : List ChatMessage
  max_tokens : Nat
deriving Repr, DecidableEq

/-- The one-shot prompt of `summarize_with_perplexity` (line 150). -/
def summarizePrompt (title url : String) : String :=
  "Summarize the key updates in this article in 2 sentences. Title: " ++ title
    ++ ", URL: " ++ url

/-- The payload `summarize_with_perplexity` builds (lines 152-161). -/
def summarizeRequest (title url : String) : CompletionRequest :=
  { model := "sonar"
    messages := [{ role := "user", content := summarizePrompt title url }]
    max_tokens := 250 }

/-- The request body built for one record: `main` passes `article["title"]`
and `article["link"]` (lines 378-382). -/
def articleSummarizeRequest (a : Article) : CompletionRequest :=
  summarizeRequest a.title a.link

/-! ## Per-article loop of `main` (lines 368-409)

The two network calls are inputs: for each selected article the environment
determines whether `summarize_with_perplexity` raised, and if not, whether
`send_to_telegram` raised.  The error strings carried are the `str(e)` values
stored by the handler. -/

/-- Outcome of the two network calls for one article. -/
inductive ArticleOutcome where
  | summarizeFail (err : String)
  | deliverFail (summary err : String)
  | ok (summary : String)
deriving Repr, DecidableEq

/-- What one loop iteration contributes: the records appended to
`processed_articles`, and the summary appended to `successful_summaries`
(if any; `successful_count` increments exactly then).

* `summarizeFail`: the handler (lines 403-409) sets `error` and
  `processed_at` and appends the record once.
* `ok`: lines 384-401 set `summary` and `processed_at`, append the record,
  deliver, and collect the summary.
* `deliverFail`: lines 384-387 set `summary` and `processed_at` and append
  the record; `send_to_telegram` then raises, so the handler mutates the
  *same* dict — adding `error` and restamping `processed_at` — and appends
  it again; both list slots alias the final state.  The summary is never
  collected (line 401 is not reached). -/
def stepArticle (t : Int) (a : Article) : ArticleOutcome → List Article × Option String
  | .summarizeFail e =>
    ([{ a with error := some e, processed_at := some t }], none)
  | .ok s =>
    ([{ a with summary := some s, processed_at := some t }], some s)
  | .deliverFail s e =>
    let a2 := { a with summary := some s, error := some e, processed_at := some t }
    ([a2, a2], none)

/-- The loop over the selected articles, accumulating `processed_articles`,
`successful_summaries` and `successful_count`. -/
def processArticles (t : Int) :
    List (Article × ArticleOutcome) → List Article × List String × Nat
  | [] => ([], [], 0)
  | p :: rest =>
    let (pa, os) := stepArticle t p.1 p.2
    let (rpa, rs, rc) := processArticles t rest
    (pa ++ rpa, os.toList ++ rs, (if os.isSome then 1 else 0) + rc)

/-- The summary string an outcome contributes to `successful_summaries`. -/
def okSummary : ArticleOutcome → Option String
  | .ok s => some s
  | _ => none

/-- Whether an article both summarized and delivered successfully. -/
def isOk : ArticleOutcome → Bool
  | .ok _ => true
  | _ => false

/-- Whether summarization succeeded but delivery then failed. -/
def isDeliverFail : ArticleOutcome → Bool
  | .deliverFail _ _ => true
  | _ => false

/-- The guard of the overview stage (line 417):
`if successful_summaries and successful_count > 0`. -/
def overviewAttempted (res : List Article × List String × Nat) : Bool :=
  !res.2.1.isEmpty && decide (res.2.2 > 0)

/-! ## Concrete fixtures for witnesses and counterexamples -/

/-- A feed entry carrying no `published_parsed` field. -/
def entryNoTS : Entry :=
  { title := some "Untimed story", link := some "http://e.x/a"
    published_parsed := none, published := none, description := some "excerpt" }

/-- A feed entry whose `published_parsed` struct converts to instant `t`. -/
def entryAt (t : Int) : Entry :=
  { title := some "Timed story", link := some "http://e.x/b"
    published_parsed := some (some t), published := some "raw date"
    description := some "excerpt" }

/-- A raw article published at instant `t`, as the Ingestor emits it. -/
def artAt (t : Int) : Article :=
  { feed_name := "F", title := "T", link := "http://a.x"
    published_parsed := some (some t), published := "raw", description := "d" }

/-! ## Loop-shape lemmas for `processArticles` -/

/-- The processed (audit) list is the concatenation of each iteration's
appends, in loop order. -/
theorem processArticles_processed (t : Int) (items : List (Article × ArticleOutcome)) :
    (processArticles t items).1 = items.flatMap fun p => (stepArticle t p.1 p.2).1 := by
  induction items with
  | nil => rfl
  | cons p rest ih => simp [processArticles, ih, List.flatMap_cons]

/-- `successful_summaries` collects exactly the summaries of fully successful
iterations, in loop order. -/
theorem processArticles_summaries (t : Int) (items : List (Article × ArticleOutcome)) :
    (processArticles t items).2.1 = items.filterMap fun p => okSummary p.2 := by
  induction items with
  | nil => rfl
  | cons p rest ih =>
    simp only [processArticles, List.filterMap_cons, ih]
    cases p.2 <;> rfl

/-- `successful_count` counts the fully successful iterations. -/
theorem processArticles_count (t : Int) (items : List (Article × ArticleOutcome)) :
    (processArticles t items).2.2 = (items.filter fun p => isOk p.2).length := by
  induction items with
  | nil => rfl
  | cons p rest ih =>
    simp only [processArticles, List.filter_cons, ih]
    cases p.2 <;> simp [stepArticle, isOk, Nat.add_comm]

/-! ## C1 -/

/-- The processed state of an article whose delivery failed: the handler added
`error` to the dict that already carried `summary`. -/
def artDeliverFailed (a : Article) (s e : String) (t : Int) : Article :=
  { a with summary := some s, error := some e, processed_at := some t }

/-- **C1, counterexample.** One selected article whose summarization succeeds
and whose Telegram delivery then fails: the handler at main.py:406 sets
`error` on the record (the claim says it stays unset), and line 401 is never
reached, so the summary is absent from `successful_summaries` (the claim says
it is included). -/
theorem summarizeOkDeliverFail_cex :
    processArticles 7 [(artAt 100, .deliverFail "S1" "Telegram API error: boom")] =
      ([artDeliverFailed (artAt 100) "S1" "Telegram API error: boom" 7,
        artDeliverFailed (artAt 100) "S1" "Telegram API error: boom" 7], [], 0) ∧
    (artDeliverFailed (artAt 100) "S1" "Telegram API error: boom" 7).error =
      some "Telegram API error: boom" := by
  constructor <;> rfl

/-- **C1, amended.** If a selected article's summarization succeeds but its
delivery fails, the record IS marked as errored (its `error` field is set,
alongside `summary`), and its summary is NOT included in the successful
summaries passed to the overview stage: that list holds exactly the summaries
of articles that both summarized and delivered successfully. -/
theorem summarizeOkDeliverFail_amended (t : Int)
    (items : List (Article × ArticleOutcome)) (a : Article) (s e : String)
    (h : (a, ArticleOutcome.deliverFail s e) ∈ items) :
    artDeliverFailed a s e t ∈ (processArticles t items).1 ∧
    (processArticles t items).2.1 = items.filterMap (fun p => okSummary p.2) := by
  refine ⟨?_, processArticles_summaries t items⟩
  rw [processArticles_processed]
  exact List.mem_flatMap_of_mem h (by simp [stepArticle, artDeliverFailed])

/-- Witness for `summarizeOkDeliverFail_amended` at a concrete run. -/
theorem summarizeOkDeliverFail_amended_witness :
    artDeliverFailed (artAt 100) "S" "E" 3 ∈
      (processArticles 3 [(artAt 100, ArticleOutcome.deliverFail "S" "E")]).1 ∧
    (processArticles 3 [(artAt 100, ArticleOutcome.deliverFail "S" "E")]).2.1 =
      [(artAt 100, ArticleOutcome.deliverFail "S" "E")].filterMap
        (fun p => okSummary p.2) :=
  summarizeOkDeliverFail_amended 3 _ (artAt 100) "S" "E" (by simp)

/-! ## C2 -/

/-- **C2, counterexample.** A record whose summarization succeeded and whose
delivery then failed carries BOTH `summary` and `error` after the loop — the
claim says never both. -/
theorem processedExactlyOne_cex :
    (processArticles 9 [(artAt 50, .deliverFail "Sum" "Err")]).1 =
      [artDeliverFailed (artAt 50) "Sum" "Err" 9,
       artDeliverFailed (artAt 50) "Sum" "Err" 9] ∧
    (artDeliverFailed (artAt 50) "Sum" "Err" 9).summary = some "Sum" ∧
    (artDeliverFailed (artAt 50) "Sum" "Err" 9).error = some "Err" := by
  refine ⟨rfl, rfl, rfl⟩

/-- **C2, amended.** Every record in the processed output list has at least
one of {`summary`, `error`} set — never neither; both are set exactly on
records whose summarization succeeded but whose delivery failed. -/
theorem processedAtLeastOne_amended (t : Int)
    (items : List (Article × ArticleOutcome)) (r : Article)
    (h : r ∈ (processArticles t items).1) :
    r.summary.isSome = true ∨ r.error.isSome = true := by
  rw [processArticles_processed] at h
  obtain ⟨p, -, hr⟩ := List.mem_flatMap.mp h
  cases hp : p.2 <;> rw [hp] at hr <;> simp_all [stepArticle]

/-- Witness for `processedAtLeastOne_amended` at a concrete run. -/
theorem processedAtLeastOne_amended_witness :
    (artDeliverFailed (artAt 50) "Sum" "Err" 9).summary.isSome = true ∨
    (artDeliverFailed (artAt 50) "Sum" "Err" 9).error.isSome = true :=
  processedAtLeastOne_amended 9 [(artAt 50, .deliverFail "Sum" "Err")] _ (by decide)

/-! ## C3 -/

/-- **C3, counterexample.** One selected article, summarization succeeds,
delivery fails: the processed list contains records with `summary` set, yet
`successful_summaries` is empty, so the overview guard at main.py:417 is
false and no aggregate request is issued — refuting "attempted iff some
processed record has `summary` set". -/
theorem overviewIff_cex :
    ((processArticles 4 [(artAt 20, .deliverFail "Svw" "Evw")]).1.map
        fun r => r.summary) = [some "Svw", some "Svw"] ∧
    overviewAttempted (processArticles 4 [(artAt 20, .deliverFail "Svw" "Evw")]) =
      false := by
  exact ⟨rfl, rfl⟩

/-- **C3, amended.** The overview stage is attempted if and only if at least
one selected article both summarized and delivered successfully —
equivalently, iff the `successful_summaries` list is non-empty; a record
whose summary was produced but not delivered does not count. -/
theorem overviewIff_amended (t : Int) (items : List (Article × ArticleOutcome)) :
    overviewAttempted (processArticles t items) = items.any fun p => isOk p.2 := by
  rw [overviewAttempted, processArticles_summaries, processArticles_count]
  induction items with
  | nil => rfl
  | cons p rest ih =>
    simp only [List.filterMap_cons, List.filter_cons, List.any_cons]
    cases hp : p.2 <;> simp_all [okSummary, isOk]

/-! ## C4 -/

/-- **C4, counterexample.** A non-malformed source with one entry that has no
parseable publish timestamp: main.py:70 appends the article only when
`published_parsed` is truthy, so the Ingestor emits zero records — the entry
never reaches the raw audit dump, and the Selector never sees it.  The claim
said it would be emitted with a null publish time. -/
theorem ingestorNullTS_cex :
    fetch_rss_feeds [("Feed A", .parsed false none [entryNoTS])] = [] ∧
    entryNoTS.published_parsed = none := by
  exact ⟨rfl, rfl⟩

/-- **C4, amended.** The Ingestor itself drops every entry with no publish
timestamp: a record is emitted (and hence can appear in the raw audit dump)
only when its `published_parsed` field is present, so every emitted record
carries a publish struct. -/
theorem ingestorNullTS_amended (feeds : List (String × FeedResult)) (a : Article)
    (h : a ∈ fetch_rss_feeds feeds) : a.published_parsed.isSome = true := by
  rw [fetch_rss_feeds] at h
  obtain ⟨l, hl, hal⟩ := List.mem_flatten.mp h
  obtain ⟨p, -, rfl⟩ := List.mem_map.mp hl
  match hp : p.2 with
  | .fetchError _ => rw [hp] at hal; simp [feedArticles] at hal
  | .parsed bozo exc entries =>
    rw [hp] at hal
    simp only [feedArticles] at hal
    split at hal
    · cases hal
    · obtain ⟨e, -, he⟩ := List.mem_filterMap.mp hal
      split at he
      · cases he
        assumption
      · cases he

/-- Witness for `ingestorNullTS_amended` at a concrete run. -/
theorem ingestorNullTS_amended_witness :
    (articleOfEntry "Feed A" (entryAt 10)).published_parsed.isSome = true :=
  ingestorNullTS_amended [("Feed A", .parsed false none [entryNoTS, entryAt 10])]
    (articleOfEntry "Feed A" (entryAt 10)) (by decide)

/-! ## C8 -/

/-- **C8.** A source whose parse reports the malformed condition (`bozo` set
together with a `bozo_exception`) or whose fetch raises contributes zero
records and exactly one skip diagnostic, and the run still yields the records
of every remaining source, in order. -/
theorem malformedFeedSkipped (pre post : List (String × FeedResult))
    (sourceName : String) (r : FeedResult) (h : skippedSource r = true) :
    feedArticles sourceName r = [] ∧ feedSkips r = 1 ∧
    fetch_rss_feeds (pre ++ (sourceName, r) :: post) =
      fetch_rss_feeds pre ++ fetch_rss_feeds post ∧
    totalSkips (pre ++ (sourceName, r) :: post) =
      totalSkips pre + 1 + totalSkips post := by
  have hz : feedArticles sourceName r = [] ∧ feedSkips r = 1 := by
    match r with
    | .fetchError m => exact ⟨rfl, rfl⟩
    | .parsed bozo exc entries =>
      rw [skippedSource] at h
      exact ⟨by simp [feedArticles, h], by simp [feedSkips, h]⟩
  refine ⟨hz.1, hz.2, ?_, ?_⟩
  · simp [fetch_rss_feeds, hz.1]
  · simp [totalSkips, hz.2]
    omega

/-- Witness for `malformedFeedSkipped`: a run of three sources whose middle
source is malformed. -/
theorem malformedFeedSkipped_witness :
    feedArticles "Bad" (FeedResult.parsed true (some "not xml") [entryAt 2]) = [] ∧
    feedSkips (FeedResult.parsed true (some "not xml") [entryAt 2]) = 1 ∧
    fetch_rss_feeds
        ([("A", FeedResult.parsed false none [entryAt 1])] ++
          ("Bad", FeedResult.parsed true (some "not xml") [entryAt 2]) ::
            [("C", FeedResult.parsed false none [entryAt 3])]) =
      fetch_rss_feeds [("A", FeedResult.parsed false none [entryAt 1])] ++
        fetch_rss_feeds [("C", FeedResult.parsed false none [entryAt 3])] ∧
    totalSkips
        ([("A", FeedResult.parsed false none [entryAt 1])] ++
          ("Bad", FeedResult.parsed true (some "not xml") [entryAt 2]) ::
            [("C", FeedResult.parsed false none [entryAt 3])]) =
      totalSkips [("A", FeedResult.parsed false none [entryAt 1])] + 1 +
        totalSkips [("C", FeedResult.parsed false none [entryAt 3])] :=
  malformedFeedSkipped [("A", .parsed false none [entryAt 1])]
    [("C", .parsed false none [entryAt 3])] "Bad"
    (.parsed true (some "not xml") [entryAt 2]) (by decide)

/-! ## C9 -/

/-- **C9.** The per-article completion request depends only on `title` and
`link`: two records identical except in `description` yield identical request
bodies (the prompt at main.py:150 interpolates only the title and URL, and
`main` passes only `article["title"]` and `article["link"]`). -/
theorem summarizeIgnoresDescription (a : Article) (d : String) :
    articleSummarizeRequest { a with description := d } =
      articleSummarizeRequest a := rfl

/-! ## C10 -/

/-- **C10.** The processed (audit) list's length equals the number of selected
articles plus the number whose summarization succeeded but whose delivery
failed: the success path appends such a record before delivery and the
failure handler appends it again (main.py:387 and 408). -/
theorem processedLength (t : Int) (items : List (Article × ArticleOutcome)) :
    (processArticles t items).1.length =
      items.length + (items.filter fun p => isDeliverFail p.2).length := by
  induction items with
  | nil => rfl
  | cons p rest ih =>
    simp only [processArticles, List.length_append, List.filter_cons, ih]
    cases p.2 <;> simp [stepArticle, isDeliverFail] <;> omega

/-! ## Selector lemmas -/

/-- Inversion of the per-article selection step: a kept article came from an
input with a convertible publish struct, at or after the cutoff, and differs
from it only in the recorded `published_datetime`. -/
theorem selectRecent_eq_some {cutoff : Int} {a b : Article}
    (h : selectRecent cutoff a = some b) :
    ∃ t, a.published_parsed = some (some t) ∧ cutoff ≤ t ∧
      b = { a with published_datetime := some t } := by
  rw [selectRecent.eq_def] at h
  split at h
  · cases h
  · cases h
  · rename_i t heq
    split at h
    · rename_i hle
      cases h
      exact ⟨t, heq, hle, rfl⟩
    · cases h

/-- Unfolding of `filter_recent_articles` on a non-empty pool. -/
theorem filter_recent_articles_ne (now : Int) (articles : List Article)
    (h : articles.isEmpty = false) :
    filter_recent_articles now articles =
      ((articles.filterMap (selectRecent (now - HOURS_LOOKBACK * 3600))).mergeSort
        fun x y => decide (sortKey y ≤ sortKey x)).take MAX_ARTICLES := by
  simp only [filter_recent_articles]
  rw [h]
  simp

/-- The comparison passed to the sort is transitive. -/
theorem sortLE_trans (a b c : Article)
    (h1 : decide (sortKey b ≤ sortKey a) = true)
    (h2 : decide (sortKey c ≤ sortKey b) = true) :
    decide (sortKey c ≤ sortKey a) = true := by
  simp only [decide_eq_true_eq] at h1 h2 ⊢
  omega

/-- The comparison passed to the sort is total. -/
theorem sortLE_total (a b : Article) :
    (decide (sortKey b ≤ sortKey a) || decide (sortKey a ≤ sortKey b)) = true := by
  rw [Bool.or_eq_true]
  simp only [decide_eq_true_eq]
  omega

/-- Re-selecting an already-selected article keeps it unchanged: its publish
struct is still in window and `published_datetime` is already recorded. -/
theorem selectRecent_out {cutoff : Int} {a b : Article}
    (h : selectRecent cutoff a = some b) : selectRecent cutoff b = some b := by
  obtain ⟨t, heq, hct, rfl⟩ := selectRecent_eq_some h
  rw [selectRecent.eq_def]
  cases a
  simp_all

/-- The Selector's output never exceeds the configured budget. -/
theorem selector_length_le (now : Int) (articles : List Article) :
    (filter_recent_articles now articles).length ≤ MAX_ARTICLES := by
  simp only [filter_recent_articles]
  split
  · simp
  · exact List.length_take_le _ _

/-- Every output record of the Selector is a fixed point of the per-article
selection step at the run's cutoff. -/
theorem selector_mem_selectRecent (now : Int) (articles : List Article)
    (a : Article) (h : a ∈ filter_recent_articles now articles) :
    selectRecent (now - HOURS_LOOKBACK * 3600) a = some a := by
  simp only [filter_recent_articles] at h
  split at h
  · cases h
  · obtain ⟨x, -, hx⟩ := List.mem_filterMap.mp
      (List.mem_mergeSort.mp (List.mem_of_mem_take h))
    exact selectRecent_out hx

/-! ## C5 -/

/-- **C5.** For every pool and every fixed run-start time `now`, the Selector
returns at most `MAX_ARTICLES` records, and every returned record's recorded
publish time is at or after the cutoff `now − HOURS_LOOKBACK` hours. -/
theorem selectorBudgetWindow (now : Int) (articles : List Article) :
    (filter_recent_articles now articles).length ≤ MAX_ARTICLES ∧
    ∀ a ∈ filter_recent_articles now articles,
      ∃ t, a.published_datetime = some t ∧ now - HOURS_LOOKBACK * 3600 ≤ t := by
  refine ⟨selector_length_le now articles, fun a ha => ?_⟩
  obtain ⟨t, -, hct, hb⟩ :=
    selectRecent_eq_some (selector_mem_selectRecent now articles a ha)
  exact ⟨t, by rw [hb], hct⟩

/-- Witness for `selectorBudgetWindow` at a concrete pool: one article
published inside the 48-hour window of `now = 1000000`. -/
theorem selectorBudgetWindow_witness :
    (filter_recent_articles 1000000 [artAt 999999]).length ≤ MAX_ARTICLES ∧
    ∃ t, ({ artAt 999999 with published_datetime := some 999999 } :
        Article).published_datetime = some t ∧ 1000000 - HOURS_LOOKBACK * 3600 ≤ t :=
  ⟨(selectorBudgetWindow 1000000 [artAt 999999]).1,
    (selectorBudgetWindow 1000000 [artAt 999999]).2 _ (by
      rw [filter_recent_articles_ne 1000000 [artAt 999999] rfl,
        show List.filterMap (selectRecent (1000000 - HOURS_LOOKBACK * 3600))
            [artAt 999999] =
          [{ artAt 999999 with published_datetime := some 999999 }] from by decide,
        List.mergeSort_singleton]
      decide)⟩

/-! ## C6 -/

/-- A second article sharing `artAt 190000`'s publish instant. -/
def artTie : Article := { artAt 190000 with title := "T2" }

/-- Evaluation of the Selector on the tied two-article pool. -/
theorem tiePool_eval :
    filter_recent_articles 200000 [artAt 190000, artTie] =
      [{ artAt 190000 with published_datetime := some 190000 },
       { artTie with published_datetime := some 190000 }] := by
  rw [filter_recent_articles_ne 200000 [artAt 190000, artTie] rfl,
    show List.filterMap (selectRecent (200000 - HOURS_LOOKBACK * 3600))
        [artAt 190000, artTie] =
      [{ artAt 190000 with published_datetime := some 190000 },
       { artTie with published_datetime := some 190000 }] from by decide,
    List.mergeSort_of_sorted (by decide : List.Pairwise
      (fun x y => decide (sortKey y ≤ sortKey x) = true)
      [{ artAt 190000 with published_datetime := some 190000 },
       { artTie with published_datetime := some 190000 }])]
  decide

/-- **C6, counterexample.** Two distinct articles sharing one publish instant,
both inside the window: Python's stable `sort(reverse=True)` keeps both, in
input order, so adjacent output elements have equal publish times and the
sequence is not *strictly* descending. -/
theorem selectorStrictDesc_cex :
    ((filter_recent_articles 200000 [artAt 190000, artTie]).map sortKey) =
      [190000, 190000] ∧
    ¬ (filter_recent_articles 200000 [artAt 190000, artTie]).Pairwise
        (fun x y => sortKey y < sortKey x) := by
  rw [tiePool_eval]
  exact ⟨rfl, by decide⟩

/-- The Selector's output is pairwise non-increasing on the sort key. -/
theorem selector_pairwise (now : Int) (articles : List Article) :
    (filter_recent_articles now articles).Pairwise
      fun x y => sortKey y ≤ sortKey x := by
  simp only [filter_recent_articles]
  split
  · exact List.Pairwise.nil
  · refine List.Pairwise.sublist (List.take_sublist _ _) ?_
    refine List.Pairwise.imp ?_ (List.sorted_mergeSort sortLE_trans sortLE_total _)
    intro x y hxy
    exact of_decide_eq_true hxy

/-- **C6, amended.** The Selector's output is sorted descending by publish
time with ties allowed: every element's `published_at` is greater than or
equal to the next element's (records with equal publish times may be
adjacent). -/
theorem selectorSortedDesc (now : Int) (articles : List Article) :
    (filter_recent_articles now articles).Pairwise
      fun x y => sortKey y ≤ sortKey x :=
  selector_pairwise now articles

/-! ## C7 -/

/-- A helper: `filterMap` is the identity on a list each of whose elements the
function keeps unchanged. -/
theorem filterMap_id_of_mem {f : Article → Option Article} :
    ∀ (l : List Article), (∀ a ∈ l, f a = some a) → l.filterMap f = l
  | [], _ => rfl
  | a :: l, h => by
    rw [List.filterMap_cons, h a (List.mem_cons_self a l),
      filterMap_id_of_mem l fun b hb => h b (List.mem_cons_of_mem a hb)]

/-- **C7.** The Selector is deterministic and idempotent for a fixed pool and
a fixed run-start time `now` (`now_utc`/`cutoff` are sampled once per run):
two applications to the same pool yield identical outputs, and applying the
Selector to its own output returns that output unchanged. -/
theorem selectorDeterministic (now : Int) (articles : List Article) :
    filter_recent_articles now articles = filter_recent_articles now articles ∧
    filter_recent_articles now (filter_recent_articles now articles) =
      filter_recent_articles now articles := by
  refine ⟨rfl, ?_⟩
  by_cases hout : (filter_recent_articles now articles).isEmpty
  · rw [List.isEmpty_iff] at hout
    rw [hout]
    rfl
  · rw [filter_recent_articles_ne now _ (Bool.not_eq_true _ ▸ hout),
      filterMap_id_of_mem _ (selector_mem_selectRecent now articles),
      List.mergeSort_of_sorted
        ((selector_pairwise now articles).imp fun hxy => decide_eq_true hxy),
      List.take_of_length_le (selector_length_le now articles)]

end Spectrum
